import Mathlib

/-!
Shallow embedding of `ObjectCollection` (src/__init__.py), a `list` subclass
that broadcasts attribute access and calls over its elements, filters with a
predicate, maps a function, and deep-merges per-element `tree()` mappings.

Python values are modelled by an inductive `PyVal`; Python dicts are
association lists preserving insertion order; an `ObjectCollection` is a
`List PyVal`.  Raising an exception is modelled with `Except String`.
Calling an element is a host-language effect, so operations that call
elements (`__call__`, `collection_tree`) are parametrised by the call
semantics of a single element.
-/

/-- A dynamic Python value: `None`, booleans, integers, strings, a plain
object carrying an attribute dictionary, a dict (tree node), or a list. -/
inductive PyVal where
  | vnone : PyVal
  | vbool : Bool → PyVal
  | vint : Int → PyVal
  | vstr : String → PyVal
  | vobj : List (String × PyVal) → PyVal
  | vdict : List (String × PyVal) → PyVal
  | vlist : List PyVal → PyVal
deriving Repr

/-- Python truthiness: `None` and `False` are falsy, numbers are falsy at
zero, strings and containers are falsy when empty, plain objects are truthy. -/
def truthy : PyVal → Bool
  | PyVal.vnone => false
  | PyVal.vbool b => b
  | PyVal.vint n => n != 0
  | PyVal.vstr s => !s.isEmpty
  | PyVal.vobj _ => true
  | PyVal.vdict d => !d.isEmpty
  | PyVal.vlist l => !l.isEmpty

/-- Is this value a mapping (a Python dict)? -/
def isDict : PyVal → Bool
  | PyVal.vdict _ => true
  | _ => false

/-- Attribute lookup on one value: a plain object holds its attribute
dictionary; the other modelled values carry no user attributes. -/
def attrLookup (v : PyVal) (name : String) : Option PyVal :=
  match v with
  | PyVal.vobj attrs => attrs.lookup name
  | _ => none

/-- `getattr(obj, name, False)`: the attribute's value when present,
otherwise the sentinel `False` (line 55 of src/__init__.py). -/
def getattrDefault (obj : PyVal) (name : String) : PyVal :=
  (attrLookup obj name).getD (PyVal.vbool false)

def dunderMark : List Char := ['_', '_']

/-- A name both prefixed and suffixed by a double underscore, i.e.
`name.startswith('__') and name.endswith('__')`
(the test on line 53 of src/__init__.py), decided on the character list. -/
def isDunder (name : String) : Bool :=
  (List.isPrefixOf dunderMark name.data) && (List.isSuffixOf dunderMark name.data)

def attrNotFoundMsg : String := "AttributeError: ObjectCollection object has no attribute"

def initName : String := "__init__"
def getattrName : String := "__getattr__"
def callName : String := "__call__"
def filterName : String := "filter"
def applyName : String := "apply"
def collectionTreeName : String := "collection_tree"
def mergeTreesName : String := "_ObjectCollection__merge_trees"
def appendName : String := "append"
def clearName : String := "clear"
def copyName : String := "copy"
def countName : String := "count"
def extendName : String := "extend"
def indexName : String := "index"
def insertName : String := "insert"
def popName : String := "pop"
def removeName : String := "remove"
def reverseName : String := "reverse"
def sortName : String := "sort"
def lenName : String := "__len__"
def getitemName : String := "__getitem__"
def setitemName : String := "__setitem__"
def iterName : String := "__iter__"
def containsName : String := "__contains__"
def eqName : String := "__eq__"
def reprName : String := "__repr__"
def strName : String := "__str__"
def addName : String := "__add__"
def mulName : String := "__mul__"

/-- The names normal attribute lookup resolves on an `ObjectCollection`
before `__getattr__` is consulted: the methods the class itself defines
and the methods and protocol hooks inherited from `list`. -/
def ownMethods : List String :=
  [initName, getattrName, callName, filterName, applyName,
   collectionTreeName, mergeTreesName,
   appendName, clearName, copyName, countName, extendName, indexName,
   insertName, popName, removeName, reverseName, sortName,
   lenName, getitemName, setitemName, iterName, containsName,
   eqName, reprName, strName, addName, mulName]

/-- The body of `ObjectCollection.__getattr__` (lines 51-55): a reserved
dunder-style name raises `AttributeError`; any other name broadcasts,
substituting `False` for elements that lack the attribute. -/
def ocGetAttr (elems : List PyVal) (name : String) : Except String (List PyVal) :=
  if isDunder name then Except.error attrNotFoundMsg
  else Except.ok (elems.map (fun obj => getattrDefault obj name))

/-- The outcome of an attribute access on the collection object itself. -/
inductive AttrResult where
  | ownMethod : AttrResult
  | attrError : AttrResult
  | broadcast : List PyVal → AttrResult
deriving Repr

/-- Full attribute access on an `ObjectCollection`: Python resolves a name
through the class (and its `list` base) first, and calls `__getattr__`
only when that normal lookup fails. -/
def ocGetAttrFull (elems : List PyVal) (name : String) : AttrResult :=
  if name ∈ ownMethods then AttrResult.ownMethod
  else
    match ocGetAttr elems name with
    | Except.error _ => AttrResult.attrError
    | Except.ok res => AttrResult.broadcast res

/-- `ObjectCollection.__call__` (lines 57-58): calling the collection calls
each truthy element with the given arguments and puts `None` at every falsy
position; `call1 obj args` is the host semantics of calling one element. -/
def ocCall (call1 : PyVal → List PyVal → PyVal) (elems : List PyVal)
    (args : List PyVal) : List PyVal :=
  elems.map (fun obj => if truthy obj then call1 obj args else PyVal.vnone)

/-- `ObjectCollection.__call__` specialised to an empty argument list, as used
by `collection_tree`; `c0 obj` is the result of calling `obj()`. -/
def ocCall0 (c0 : PyVal → PyVal) (elems : List PyVal) : List PyVal :=
  elems.map (fun obj => if truthy obj then c0 obj else PyVal.vnone)

/-- `ObjectCollection.filter` (lines 60-62): keep the elements on which the
predicate's result is truthy, in order. -/
def ocFilter (p : PyVal → PyVal) (elems : List PyVal) : List PyVal :=
  elems.filter (fun obj => truthy (p obj))

/-- `ObjectCollection.apply` (lines 64-66): map the function over the list. -/
def ocApply (f : PyVal → PyVal) (elems : List PyVal) : List PyVal :=
  elems.map f

/-- Python's `and` on values: `a and b` is `b` when `a` is truthy, else `a`. -/
def pyAnd (a b : PyVal) : PyVal :=
  if truthy a then b else a

/-- Python dict assignment `d[k] = v`: replace the value at an existing key
in place, otherwise append the new binding at the end. -/
def setKey (d : List (String × PyVal)) (k : String) (v : PyVal) :
    List (String × PyVal) :=
  if (d.lookup k).isSome then
    d.map (fun p => if p.1 = k then (k, v) else p)
  else d ++ [(k, v)]

def noItemsMsg : String := "AttributeError: object has no attribute items"
def notIterableMsg : String := "TypeError: argument is not iterable"

mutual
/-- `ObjectCollection.__merge_trees` (lines 68-76), functionally: the updated
`target` is returned instead of mutated.  A falsy `other` is skipped
(`if not other: return`); a truthy non-dict `other` fails at `other.items()`. -/
def mergeTrees (target other : PyVal) : Except String PyVal :=
  if truthy other = false then Except.ok target
  else
    match other with
    | PyVal.vdict items => mergeItems target items
    | _ => Except.error noItemsMsg

/-- The `for key, value in other.items()` loop of `__merge_trees`: an absent
key is inserted as-is; a present key recurses into the stored value.  The
membership test `key not in target` fails on a non-dict target. -/
def mergeItems (target : PyVal) (items : List (String × PyVal)) :
    Except String PyVal :=
  match items with
  | [] => Except.ok target
  | (key, value) :: rest =>
    match target with
    | PyVal.vdict tEntries =>
      match tEntries.lookup key with
      | none => mergeItems (PyVal.vdict (setKey tEntries key value)) rest
      | some existing =>
        match mergeTrees existing value with
        | Except.ok merged =>
            mergeItems (PyVal.vdict (setKey tEntries key merged)) rest
        | Except.error e => Except.error e
    | _ => Except.error notIterableMsg
end

def treeName : String := "tree"

/-- The `for tree in self.tree(): ObjectCollection.__merge_trees(...)` loop of
`collection_tree` (lines 80-81): merge each tree into the accumulator from
left to right; a raised exception aborts the loop and propagates. -/
def mergeAll (acc : PyVal) : List PyVal → Except String PyVal
  | [] => Except.ok acc
  | t :: rest =>
    match mergeTrees acc t with
    | Except.ok acc2 => mergeAll acc2 rest
    | Except.error e => Except.error e

/-- `ObjectCollection.collection_tree` (lines 78-82): `self.tree` broadcasts
the `tree` attribute (through `__getattr__`), calling the result broadcasts
the call (through `__call__`, with `c0` the host semantics of calling one
element's `tree` method), and the trees are merged left to right into a
fresh dict. -/
def collection_tree (c0 : PyVal → PyVal) (elems : List PyVal) :
    Except String PyVal :=
  match ocGetAttr elems treeName with
  | Except.error e => Except.error e
  | Except.ok ms => mergeAll (PyVal.vdict []) (ocCall0 c0 ms)

/-! Concrete values used in examples and counterexamples. -/

def aKey : String := "a"
def bKey : String := "b"
def cKey : String := "c"
def fooDunder : String := "__foo__"

/-- Call semantics for two elements whose `tree()` results are the flat
mappings `{"a": 1}` and `{"a": 2}`: the element tagged `1` returns the
first, any other the second. -/
def c3call : PyVal → PyVal := fun v =>
  match v with
  | PyVal.vint 1 => PyVal.vdict [(aKey, PyVal.vint 1)]
  | _ => PyVal.vdict [(aKey, PyVal.vint 2)]

/-- Call semantics for two elements whose `tree()` results are the nested
mappings `{"a": {"b": 1}}` and `{"a": {"c": 2}}`. -/
def c4call : PyVal → PyVal := fun v =>
  match v with
  | PyVal.vint 1 => PyVal.vdict [(aKey, PyVal.vdict [(bKey, PyVal.vint 1)])]
  | _ => PyVal.vdict [(aKey, PyVal.vdict [(cKey, PyVal.vint 2)])]

/-! Helper lemmas. -/

theorem isDunder_tree : isDunder treeName = false := by decide

theorem truthy_pyAnd (a b : PyVal) : truthy (pyAnd a b) = (truthy a && truthy b) := by
  by_cases h : truthy a = true
  · simp [pyAnd, h]
  · simp only [Bool.not_eq_true] at h
    simp [pyAnd, h]

/-- `if not other: return`: merging a falsy tree leaves the target unchanged. -/
theorem mergeTrees_falsy (target other : PyVal) (h : truthy other = false) :
    mergeTrees target other = Except.ok target := by
  unfold mergeTrees
  simp [h]

/-- Merging a truthy dict steps into the `items()` loop. -/
theorem mergeTrees_dict (target : PyVal) (items : List (String × PyVal))
    (h : truthy (PyVal.vdict items) = true) :
    mergeTrees target (PyVal.vdict items) = mergeItems target items := by
  unfold mergeTrees
  simp [h]

/-- One loop step of `__merge_trees` at a key already present in the target:
recurse into the stored value and write the result back. -/
theorem mergeItems_single_present (tEntries : List (String × PyVal))
    (key : String) (value existing : PyVal)
    (h : tEntries.lookup key = some existing) :
    mergeItems (PyVal.vdict tEntries) [(key, value)] =
      match mergeTrees existing value with
      | Except.ok merged => Except.ok (PyVal.vdict (setKey tEntries key merged))
      | Except.error e => Except.error e := by
  rw [mergeItems.eq_def]
  simp only [h]
  cases mergeTrees existing value with
  | ok merged => simp [mergeItems]
  | error e => rfl

/-- A trailing falsy tree contributes nothing to the merge loop. -/
theorem mergeAll_append_falsy (ts : List PyVal) (t : PyVal) (h : truthy t = false) :
    ∀ acc, mergeAll acc (ts ++ [t]) = mergeAll acc ts := by
  induction ts with
  | nil =>
      intro acc
      simp [mergeAll, mergeTrees_falsy _ _ h]
  | cons t2 rest ih =>
      intro acc
      simp only [List.cons_append, mergeAll]
      cases mergeTrees acc t2 with
      | ok acc2 => simp [ih acc2]
      | error e => rfl

/-! The claims. -/

/-- C1: for every attribute name that is neither dunder-reserved nor one of
the collection's own operations, attribute access broadcasts: it yields a new
collection of the same length where position i holds element i's value for
that attribute when present and the boolean `False` otherwise, in order. -/
theorem attr_broadcast_spec (elems : List PyVal) (name : String)
    (h1 : isDunder name = false) (h2 : name ∉ ownMethods) :
    ocGetAttrFull elems name =
      AttrResult.broadcast (elems.map (fun obj => getattrDefault obj name)) ∧
    (elems.map (fun obj => getattrDefault obj name)).length = elems.length ∧
    ∀ (i : Nat) (v : PyVal), elems[i]? = some v →
      (elems.map (fun obj => getattrDefault obj name))[i]? =
        some ((attrLookup v name).getD (PyVal.vbool false)) := by
  refine ⟨?_, ?_, ?_⟩
  · simp [ocGetAttrFull, ocGetAttr, h1, h2]
  · simp
  · intro i v hv
    simp [List.getElem?_map, hv, getattrDefault]

theorem attr_broadcast_spec_witness :
    ocGetAttrFull [PyVal.vobj [(bKey, PyVal.vint 7)], PyVal.vint 5] bKey =
      AttrResult.broadcast [PyVal.vint 7, PyVal.vbool false] := by
  have h := attr_broadcast_spec [PyVal.vobj [(bKey, PyVal.vint 7)], PyVal.vint 5] bKey
    (by decide) (by decide)
  have h1 := h.1
  simpa [getattrDefault, attrLookup, List.lookup] using h1

/-- C5: invoking the collection as a callable broadcasts the call: the result
has the same length, holds the call's result at every truthy position, and
the sentinel `None` at every falsy position. -/
theorem call_broadcast_spec (call1 : PyVal → List PyVal → PyVal)
    (elems args : List PyVal) :
    (ocCall call1 elems args).length = elems.length ∧
    ∀ (i : Nat) (v : PyVal), elems[i]? = some v →
      (ocCall call1 elems args)[i]? =
        some (if truthy v then call1 v args else PyVal.vnone) := by
  refine ⟨by simp [ocCall], ?_⟩
  intro i v hv
  simp [ocCall, List.getElem?_map, hv]

theorem call_broadcast_spec_witness :
    (ocCall (fun v _ => v) [PyVal.vbool false, PyVal.vint 3] [])[0]? = some PyVal.vnone ∧
    (ocCall (fun v _ => v) [PyVal.vbool false, PyVal.vint 3] [])[1]? = some (PyVal.vint 3) := by
  have h := call_broadcast_spec (fun v _ => v) [PyVal.vbool false, PyVal.vint 3] []
  refine ⟨?_, ?_⟩
  · have h0 := h.2 0 (PyVal.vbool false) rfl
    simpa [truthy] using h0
  · have h1 := h.2 1 (PyVal.vint 3) rfl
    simpa [truthy] using h1

/-- C6: a dunder-style name that the collection does not otherwise define
raises AttributeError instead of broadcasting. -/
theorem dunder_attr_error (elems : List PyVal) (name : String)
    (h1 : isDunder name = true) (h2 : name ∉ ownMethods) :
    ocGetAttrFull elems name = AttrResult.attrError ∧
    ocGetAttr elems name = Except.error attrNotFoundMsg := by
  constructor
  · simp [ocGetAttrFull, ocGetAttr, h1, h2]
  · simp [ocGetAttr, h1]

theorem dunder_attr_error_witness :
    ocGetAttrFull [PyVal.vobj []] fooDunder = AttrResult.attrError ∧
    ocGetAttr [PyVal.vobj []] fooDunder = Except.error attrNotFoundMsg :=
  dunder_attr_error [PyVal.vobj []] fooDunder (by decide) (by decide)

/-- C10: a name the collection (or its list base) itself defines resolves to
the collection's own method and is never broadcast, whatever the elements. -/
theorem own_method_not_broadcast (elems : List PyVal) (name : String)
    (h : name ∈ ownMethods) :
    ocGetAttrFull elems name = AttrResult.ownMethod := by
  simp [ocGetAttrFull, h]

theorem own_method_not_broadcast_witness :
    ocGetAttrFull [PyVal.vobj [(filterName, PyVal.vint 1)]] filterName =
      AttrResult.ownMethod :=
  own_method_not_broadcast [PyVal.vobj [(filterName, PyVal.vint 1)]] filterName (by decide)

/-- C7: `filter` keeps exactly the elements with a truthy predicate result,
in the original relative order (a sublist of the receiver, which is left
unchanged), and filtering twice equals filtering once with the conjunction
of the two predicates. -/
theorem filter_spec (p q : PyVal → PyVal) (elems : List PyVal) :
    List.Sublist (ocFilter p elems) elems ∧
    (∀ x : PyVal, x ∈ ocFilter p elems ↔ x ∈ elems ∧ truthy (p x) = true) ∧
    ocFilter q (ocFilter p elems) = ocFilter (fun x => pyAnd (p x) (q x)) elems := by
  refine ⟨List.filter_sublist elems, ?_, ?_⟩
  · intro x
    simp [ocFilter, List.mem_filter]
  · simp only [ocFilter, List.filter_filter]
    apply List.filter_congr
    intro a _
    simp [truthy_pyAnd, Bool.and_comm]

/-- C8: chained broadcast `coll.b.c` equals broadcasting `c` over the
collection produced by broadcasting `b`; an element missing `b` holds the
sentinel `False` at the outer level and again yields `False` (no `c` value,
no exception) at the inner level. -/
theorem chained_broadcast_spec (elems : List PyVal) (b c : String)
    (hb1 : isDunder b = false) (hb2 : b ∉ ownMethods)
    (hc1 : isDunder c = false) (hc2 : c ∉ ownMethods) :
    ocGetAttrFull elems b =
      AttrResult.broadcast (elems.map (fun e => getattrDefault e b)) ∧
    ocGetAttrFull (elems.map (fun e => getattrDefault e b)) c =
      AttrResult.broadcast
        ((elems.map (fun e => getattrDefault e b)).map (fun e => getattrDefault e c)) ∧
    ∀ (i : Nat) (v : PyVal), elems[i]? = some v → attrLookup v b = none →
      (elems.map (fun e => getattrDefault e b))[i]? = some (PyVal.vbool false) ∧
      ((elems.map (fun e => getattrDefault e b)).map (fun e => getattrDefault e c))[i]? =
        some (PyVal.vbool false) := by
  refine ⟨?_, ?_, ?_⟩
  · simp [ocGetAttrFull, ocGetAttr, hb1, hb2]
  · simp [ocGetAttrFull, ocGetAttr, hc1, hc2]
  · intro i v hv hb
    have hfb : getattrDefault v b = PyVal.vbool false := by
      simp [getattrDefault, hb]
    constructor
    · simp [List.getElem?_map, hv, hfb]
    · simp only [List.getElem?_map, hv, Option.map_some']
      rw [hfb]
      rfl

theorem chained_broadcast_spec_witness :
    ([PyVal.vobj []].map (fun e => getattrDefault e bKey))[0]? = some (PyVal.vbool false) ∧
    (([PyVal.vobj []].map (fun e => getattrDefault e bKey)).map
        (fun e => getattrDefault e cKey))[0]? = some (PyVal.vbool false) :=
  (chained_broadcast_spec [PyVal.vobj []] bKey cKey
    (by decide) (by decide) (by decide) (by decide)).2.2 0 (PyVal.vobj []) rfl rfl

/-- C9: any falsy per-element tree value — `None`, `False`, or an empty
mapping, including the `None` produced for an element whose `tree` attribute
was missing and therefore broadcast as `False` and skipped by the call
broadcast — is silently skipped by the merge: it contributes no keys and
raises no error. -/
theorem merge_skips_falsy :
    (∀ target other : PyVal, truthy other = false →
      mergeTrees target other = Except.ok target) ∧
    (∀ (c0 : PyVal → PyVal) (elems : List PyVal) (attrs : List (String × PyVal)),
      attrs.lookup treeName = none →
      collection_tree c0 (elems ++ [PyVal.vobj attrs]) = collection_tree c0 elems) := by
  constructor
  · exact mergeTrees_falsy
  · intro c0 elems attrs h
    have hattr : getattrDefault (PyVal.vobj attrs) treeName = PyVal.vbool false := by
      simp [getattrDefault, attrLookup, h]
    simp [collection_tree, ocGetAttr, isDunder_tree, ocCall0, hattr, truthy,
      mergeAll_append_falsy]

theorem merge_skips_falsy_witness :
    mergeTrees (PyVal.vdict []) PyVal.vnone = Except.ok (PyVal.vdict []) ∧
    collection_tree (fun _ => PyVal.vnone) ([PyVal.vint 1] ++ [PyVal.vobj []]) =
      collection_tree (fun _ => PyVal.vnone) [PyVal.vint 1] :=
  ⟨merge_skips_falsy.1 _ _ rfl, merge_skips_falsy.2 _ _ _ rfl⟩

/-- C2 counterexample: a collection whose single element lacks `tree()` makes
`collection_tree()` return the empty mapping with no error — the element is
silently skipped, refuting the claim that the call must fail. -/
theorem collection_tree_missing_tree_ok :
    collection_tree (fun _ => PyVal.vnone) [PyVal.vobj []] = Except.ok (PyVal.vdict []) := by
  simp [collection_tree, ocGetAttr, ocCall0, mergeAll, mergeTrees, truthy,
    getattrDefault, attrLookup, isDunder_tree]

/-- C2 amended: an element lacking the `tree` attribute is silently skipped
by `collection_tree()` — the attribute broadcast substitutes `False`, the
call broadcast turns that into `None`, and the merge ignores falsy trees —
so the result equals that of the collection without the element. -/
theorem collection_tree_skips_missing_tree (c0 : PyVal → PyVal)
    (attrs : List (String × PyVal)) (elems : List PyVal)
    (h : attrs.lookup treeName = none) :
    collection_tree c0 (PyVal.vobj attrs :: elems) = collection_tree c0 elems := by
  have hattr : getattrDefault (PyVal.vobj attrs) treeName = PyVal.vbool false := by
    simp [getattrDefault, attrLookup, h]
  simp [collection_tree, ocGetAttr, isDunder_tree, ocCall0, hattr, truthy,
    mergeAll, mergeTrees_falsy]

theorem collection_tree_skips_missing_tree_witness :
    collection_tree (fun _ => PyVal.vnone) (PyVal.vobj [] :: [PyVal.vint 2]) =
      collection_tree (fun _ => PyVal.vnone) [PyVal.vint 2] :=
  collection_tree_skips_missing_tree _ [] [PyVal.vint 2] rfl

/-- C3 counterexample: on two elements whose trees are `{"a": 1}` and
`{"a": 2}`, `collection_tree()` does not silently keep the first value — the
merge recurses into the stored `1` and fails at `(2).items()` with an
AttributeError, refuting the claim of an error-free first-wins result. -/
theorem merge_conflict_raises_cx :
    collection_tree c3call
      [PyVal.vobj [(treeName, PyVal.vint 1)], PyVal.vobj [(treeName, PyVal.vint 2)]] =
      Except.error noItemsMsg := by
  simp [collection_tree, ocGetAttr, ocCall0, mergeAll, mergeTrees, mergeItems, truthy,
    getattrDefault, attrLookup, isDunder_tree, c3call, setKey, List.lookup]

/-- C3 amended: when two elements supply a non-mapping value under the same
key, the merge recurses into the first-seen value; it raises an
AttributeError when the second value is truthy (its `items()` is missing),
and only silently keeps the first-seen value when the second is falsy. -/
theorem merge_conflict_spec (v1 v2 : PyVal) :
    (truthy v2 = true → isDict v2 = false →
      mergeTrees (PyVal.vdict [(aKey, v1)]) (PyVal.vdict [(aKey, v2)]) =
        Except.error noItemsMsg) ∧
    (truthy v2 = false →
      mergeTrees (PyVal.vdict [(aKey, v1)]) (PyVal.vdict [(aKey, v2)]) =
        Except.ok (PyVal.vdict [(aKey, v1)])) := by
  constructor
  · intro h1 h2
    have hm : mergeTrees v1 v2 = Except.error noItemsMsg := by
      cases v2 <;> simp_all [mergeTrees, isDict, truthy]
    simp [mergeTrees, mergeItems, truthy, List.lookup, hm]
  · intro h
    have hm : mergeTrees v1 v2 = Except.ok v1 := mergeTrees_falsy v1 v2 h
    simp [mergeTrees, mergeItems, truthy, List.lookup, hm, setKey]

theorem merge_conflict_spec_witness :
    mergeTrees (PyVal.vdict [(aKey, PyVal.vint 1)]) (PyVal.vdict [(aKey, PyVal.vint 2)]) =
      Except.error noItemsMsg ∧
    mergeTrees (PyVal.vdict [(aKey, PyVal.vint 1)]) (PyVal.vdict [(aKey, PyVal.vint 0)]) =
      Except.ok (PyVal.vdict [(aKey, PyVal.vint 1)]) :=
  ⟨(merge_conflict_spec (PyVal.vint 1) (PyVal.vint 2)).1 (by decide) rfl,
   (merge_conflict_spec (PyVal.vint 1) (PyVal.vint 0)).2 (by decide)⟩

/-- C4: when a key is already present and its stored value is a mapping, the
incoming sub-mapping is merged into it recursively rather than overwriting
it; in particular the trees `{"a": {"b": 1}}` and `{"a": {"c": 2}}` merge to
`{"a": {"b": 1, "c": 2}}`. -/
theorem deep_merge_spec :
    (∀ (k : String) (d1 d2 : List (String × PyVal)),
      mergeTrees (PyVal.vdict [(k, PyVal.vdict d1)]) (PyVal.vdict [(k, PyVal.vdict d2)]) =
        Except.map (fun m => PyVal.vdict [(k, m)])
          (mergeTrees (PyVal.vdict d1) (PyVal.vdict d2))) ∧
    collection_tree c4call
      [PyVal.vobj [(treeName, PyVal.vint 1)], PyVal.vobj [(treeName, PyVal.vint 2)]] =
      Except.ok (PyVal.vdict [(aKey, PyVal.vdict [(bKey, PyVal.vint 1), (cKey, PyVal.vint 2)])]) := by
  constructor
  · intro k d1 d2
    have hlk : List.lookup k [(k, PyVal.vdict d1)] = some (PyVal.vdict d1) := by
      simp [List.lookup]
    rw [mergeTrees_dict _ _ (by simp [truthy]),
      mergeItems_single_present _ _ _ _ hlk]
    cases hm : mergeTrees (PyVal.vdict d1) (PyVal.vdict d2) with
    | ok m => simp [hm, setKey, List.lookup, Except.map]
    | error e => simp [hm, Except.map]
  · have h1 : (cKey == bKey) = false := by decide
    simp [collection_tree, ocGetAttr, ocCall0, mergeAll, mergeTrees, mergeItems, truthy,
      getattrDefault, attrLookup, isDunder_tree, c4call, setKey, List.lookup, h1]

theorem filter_spec_witness :
    ocFilter (fun v => v) (ocFilter (fun v => v) [PyVal.vint 1, PyVal.vint 0]) =
      ocFilter (fun x => pyAnd x x) [PyVal.vint 1, PyVal.vint 0] :=
  (filter_spec (fun v => v) (fun v => v) [PyVal.vint 1, PyVal.vint 0]).2.2

theorem deep_merge_spec_witness :
    mergeTrees (PyVal.vdict [(aKey, PyVal.vdict [(bKey, PyVal.vint 1)])])
        (PyVal.vdict [(aKey, PyVal.vdict [(cKey, PyVal.vint 2)])]) =
      Except.map (fun m => PyVal.vdict [(aKey, m)])
        (mergeTrees (PyVal.vdict [(bKey, PyVal.vint 1)]) (PyVal.vdict [(cKey, PyVal.vint 2)])) :=
  deep_merge_spec.1 aKey [(bKey, PyVal.vint 1)] [(cKey, PyVal.vint 2)]
